import Mathlib

/-!
Verification of the hypercream audio-reactive visualizer core.

The TypeScript sources are shallowly embedded: numbers become real
numbers, `Uint8Array` spectra become lists of naturals (byte values),
class instances become explicit state records, and GPU side effects
become explicit resource states and event traces.
-/

namespace Hypercream

/-! ### AudioAnalyzer (src/audio/AudioAnalyzer.ts)

The spectrum buffer is a list of byte magnitudes.  The scalar feature
extractors accumulate the squares of the bin magnitudes normalized to
[0,1] and take a square root of the mean, exactly as the source loops do. -/

namespace AudioAnalyzer

/-- Sum of squared normalized magnitudes over a list of byte values,
mirroring the accumulation loops in getEnergy/getBass/getTreble. -/
noncomputable def sumSquares (bins : List ℕ) : ℝ :=
  (bins.map (fun (v : ℕ) => ((v : ℝ) / 255) * ((v : ℝ) / 255))).sum

/-- AudioAnalyzer.getEnergy: RMS of normalized magnitudes over the whole
spectrum; returns 0 on an empty buffer. -/
noncomputable def getEnergy (spectrum : List ℕ) : ℝ :=
  if spectrum.length = 0 then 0
  else Real.sqrt (sumSquares spectrum / (spectrum.length : ℝ))

/-- AudioAnalyzer.getBass: the source loops `for (let i = 1; i < bassEnd; i++)`
with `bassEnd = min(12, length)`, accumulating bins 1 .. bassEnd-1, then
divides by `bassEnd` (not by the number of summed bins) before the square
root. -/
noncomputable def getBass (spectrum : List ℕ) : ℝ :=
  if spectrum.length = 0 then 0
  else
    let bassEnd := min 12 spectrum.length
    Real.sqrt (sumSquares ((spectrum.take bassEnd).drop 1) / (bassEnd : ℝ))

/-- AudioAnalyzer.getTreble: RMS over the top quarter of the spectrum,
starting at `floor(length * 0.75)`. -/
noncomputable def getTreble (spectrum : List ℕ) : ℝ :=
  if spectrum.length = 0 then 0
  else
    let trebleStart := spectrum.length * 3 / 4
    Real.sqrt (sumSquares (spectrum.drop trebleStart) /
      ((spectrum.length - trebleStart : ℕ) : ℝ))

/-- Root-mean-square of normalized magnitudes over a list of bins, as the
spec describes the scalar summaries: sqrt of the mean of the squared
normalized values (0 on an empty range).  This is the spec-side reading
used to compare against the source definitions. -/
noncomputable def specRMS (bins : List ℕ) : ℝ :=
  if bins.length = 0 then 0
  else Real.sqrt (sumSquares bins / (bins.length : ℝ))

end AudioAnalyzer

/-! ### BeatDetector (src/audio/BeatDetector.ts, unnamed part) -/

namespace BeatDetector

/-- BeatDetectionConfig with the four tunables of the source. -/
structure Config where
  threshold : ℝ
  minimumInterval : ℝ
  energyHistory : ℕ
  varianceThreshold : ℝ

/-- Default configuration from the BeatDetector constructor. -/
noncomputable def defaultConfig : Config :=
  { threshold := 1.3
    minimumInterval := 300
    energyHistory := 43
    varianceThreshold := 0.1 }

/-- Mutable state of a BeatDetector instance. -/
structure State where
  config : Config
  energyHistory : List ℝ
  lastBeatTime : ℝ
  isCurrentlyBeat : Bool

/-- State right after construction (history empty, no beat, time 0). -/
def initialState (config : Config) : State :=
  { config := config
    energyHistory := []
    lastBeatTime := 0
    isCurrentlyBeat := false }

/-- BeatDetector.calculateVariance: sqrt of the mean squared deviation
from the given mean; 0 on an empty list. -/
noncomputable def calculateVariance (values : List ℝ) (mean : ℝ) : ℝ :=
  if values.length = 0 then 0
  else
    Real.sqrt ((values.map (fun value => (value - mean) ^ 2)).sum /
      (values.length : ℝ))

/-- BeatDetector.update, with the current timestamp and the analyzer's
current energy passed explicitly.  Pushes the energy, evicts the oldest
sample when over capacity, and recomputes the beat flag. -/
noncomputable def update (s : State) (currentTime energy : ℝ) : State :=
  let hist1 := s.energyHistory ++ [energy]
  let hist2 := if s.config.energyHistory < hist1.length then hist1.drop 1 else hist1
  if hist2.length < s.config.energyHistory then
    { s with energyHistory := hist2, isCurrentlyBeat := false }
  else
    let averageEnergy := hist2.sum / (hist2.length : ℝ)
    let variance := calculateVariance hist2 averageEnergy
    let timeSinceLastBeat := currentTime - s.lastBeatTime
    if energy > averageEnergy * s.config.threshold ∧
        variance > s.config.varianceThreshold ∧
        timeSinceLastBeat ≥ s.config.minimumInterval then
      { s with energyHistory := hist2, isCurrentlyBeat := true,
               lastBeatTime := currentTime }
    else
      { s with energyHistory := hist2, isCurrentlyBeat := false }

/-- BeatDetector.getBeatStrength, with the analyzer's current energy
passed explicitly. -/
noncomputable def getBeatStrength (s : State) (currentEnergy : ℝ) : ℝ :=
  if s.energyHistory.length < s.config.energyHistory then 0
  else
    let averageEnergy := s.energyHistory.sum / (s.energyHistory.length : ℝ)
    if averageEnergy = 0 then 0
    else max 0 ((currentEnergy - averageEnergy) / averageEnergy)

/-- BeatDetector.reset. -/
def reset (s : State) : State :=
  { s with energyHistory := [], lastBeatTime := 0, isCurrentlyBeat := false }

/-- Run a sequence of update calls, each input a (timestamp, energy) pair. -/
noncomputable def runUpdates (s : State) (inputs : List (ℝ × ℝ)) : State :=
  inputs.foldl (fun st p => update st p.1 p.2) s

/-- Arithmetic mean of a list of reals, as the spec describes the rolling
average. -/
noncomputable def listMean (l : List ℝ) : ℝ := l.sum / (l.length : ℝ)

/-- The spec's variance formula over a full history:
sqrt of the mean of the squared deviations from the mean. -/
noncomputable def specVariance (l : List ℝ) : ℝ :=
  Real.sqrt ((l.map (fun v => (v - listMean l) ^ 2)).sum / (l.length : ℝ))

theorem update_config (s : State) (t e : ℝ) : (update s t e).config = s.config := by
  simp only [update]
  split_ifs <;> rfl

theorem update_lastBeatTime_of_beat (s : State) (t e : ℝ)
    (h : (update s t e).isCurrentlyBeat = true) :
    (update s t e).lastBeatTime = t := by
  simp only [update] at h ⊢
  split_ifs at h ⊢ <;> simp_all

theorem update_short (s : State) (t e : ℝ)
    (h : s.energyHistory.length + 1 < s.config.energyHistory) :
    update s t e =
      { s with energyHistory := s.energyHistory ++ [e], isCurrentlyBeat := false } := by
  have h1 : ¬ s.config.energyHistory < (s.energyHistory ++ [e]).length := by
    simp only [List.length_append, List.length_cons, List.length_nil]
    omega
  have h2 : (s.energyHistory ++ [e]).length < s.config.energyHistory := by
    simp only [List.length_append, List.length_cons, List.length_nil]
    omega
  simp only [update]
  rw [if_neg h1, if_pos h2]

theorem runUpdates_cons (s : State) (x : ℝ × ℝ) (xs : List (ℝ × ℝ)) :
    runUpdates s (x :: xs) = runUpdates (update s x.1 x.2) xs := rfl

theorem runUpdates_short (inputs : List (ℝ × ℝ)) (s : State)
    (h : s.energyHistory.length + inputs.length < s.config.energyHistory) :
    (runUpdates s inputs).config = s.config ∧
    (runUpdates s inputs).energyHistory.length =
      s.energyHistory.length + inputs.length ∧
    ((runUpdates s inputs).isCurrentlyBeat = false ∨ inputs = []) := by
  induction inputs generalizing s with
  | nil =>
    exact ⟨rfl, by simp [runUpdates], Or.inr rfl⟩
  | cons x xs ih =>
    have hx : s.energyHistory.length + 1 < s.config.energyHistory := by
      simp only [List.length_cons] at h
      omega
    have hupd := update_short s x.1 x.2 hx
    have hlen : (update s x.1 x.2).energyHistory.length =
        s.energyHistory.length + 1 := by
      rw [hupd]
      simp
    have hcfg : (update s x.1 x.2).config = s.config := update_config s x.1 x.2
    have hbeat : (update s x.1 x.2).isCurrentlyBeat = false := by
      rw [hupd]
    have hrec : (update s x.1 x.2).energyHistory.length + xs.length <
        (update s x.1 x.2).config.energyHistory := by
      rw [hlen, hcfg]
      simp only [List.length_cons] at h
      omega
    obtain ⟨hc, hl, hb⟩ := ih (update s x.1 x.2) hrec
    refine ⟨by rw [runUpdates_cons, hc, hcfg], ?_, ?_⟩
    · rw [runUpdates_cons, hl, hlen]
      simp only [List.length_cons]
      omega
    · left
      rcases hb with hb | hb
      · rw [runUpdates_cons]
        exact hb
      · rw [runUpdates_cons, hb]
        simpa [runUpdates] using hbeat

end BeatDetector

/-! ### Program (src/core/Program.ts)

GPU shader/program objects are modelled as numeric ids.  The GL context is
modelled by an oracle fixing compile/link outcomes and info logs, plus a
resource state listing the live shader and program objects.  createShader
and createProgram return the thrown error message or the created id,
together with the updated resource state. -/

namespace Program

/-- Outcome oracle for the GL context: whether each shader compiles,
whether the program links, and the info logs the context reports. -/
structure GLShaderSpec where
  vertexCompileOk : Bool
  fragmentCompileOk : Bool
  linkOk : Bool
  vertexLog : String
  fragmentLog : String
  linkLog : String

/-- Live GPU objects: shader ids, program ids, and the next fresh id. -/
structure GLResources where
  shaders : List ℕ
  programs : List ℕ
  nextId : ℕ

inductive ShaderKind where
  | vertex
  | fragment
deriving DecidableEq

def GLShaderSpec.compileOk (spec : GLShaderSpec) : ShaderKind → Bool
  | .vertex => spec.vertexCompileOk
  | .fragment => spec.fragmentCompileOk

def GLShaderSpec.infoLog (spec : GLShaderSpec) : ShaderKind → String
  | .vertex => spec.vertexLog
  | .fragment => spec.fragmentLog

/-- Program.createShader: create the shader object, compile it; on compile
failure delete it again and throw the info log. -/
def createShader (spec : GLShaderSpec) (st : GLResources) (kind : ShaderKind) :
    Except String ℕ × GLResources :=
  let id := st.nextId
  let st1 : GLResources :=
    { st with shaders := st.shaders ++ [id], nextId := id + 1 }
  if spec.compileOk kind then
    (.ok id, st1)
  else
    (.error ("Shader compilation failed: " ++ spec.infoLog kind),
     { st1 with shaders := st1.shaders.erase id })

/-- Program.createProgram: compile both shaders (outside the try block, so
their errors propagate unwrapped), then create and link the program inside
the try block; on link failure delete the program and rethrow wrapped; on
success delete both shaders. -/
def createProgram (spec : GLShaderSpec) (st : GLResources) :
    Except String ℕ × GLResources :=
  match createShader spec st .vertex with
  | (.error e, st1) => (.error e, st1)
  | (.ok vs, st1) =>
    match createShader spec st1 .fragment with
    | (.error e, st2) => (.error e, st2)
    | (.ok fs, st2) =>
      let pid := st2.nextId
      let st3 : GLResources :=
        { st2 with programs := st2.programs ++ [pid], nextId := pid + 1 }
      if spec.linkOk then
        (.ok pid,
         { st3 with shaders := (st3.shaders.erase vs).erase fs })
      else
        (.error ("Failed to create shader program: Shader program linking failed: "
            ++ spec.linkLog),
         { st3 with programs := st3.programs.erase pid })

/-- Typed uniform payloads of the UniformValue interface. -/
inductive UniformPayload where
  | num : ℝ → UniformPayload
  | arr : List ℝ → UniformPayload

inductive UniformType where
  | float
  | int
  | vec2
  | vec3
  | vec4
  | mat3
  | mat4
  | sampler2D

structure UniformValue where
  type : UniformType
  value : UniformPayload

/-- GPU commands a setUniform call can issue (warn is the console warning
on an arity mismatch; it uploads nothing). -/
inductive GLCall where
  | uniform1f : ℕ → UniformPayload → GLCall
  | uniform1i : ℕ → UniformPayload → GLCall
  | uniform2f : ℕ → ℝ → ℝ → GLCall
  | uniform3f : ℕ → ℝ → ℝ → ℝ → GLCall
  | uniform4f : ℕ → ℝ → ℝ → ℝ → ℝ → GLCall
  | uniformMatrix3fv : ℕ → UniformPayload → GLCall
  | uniformMatrix4fv : ℕ → UniformPayload → GLCall
  | warn : String → GLCall

/-- Program.setUniform: look up the cached location; absent names are a
silent no-op, present ones dispatch on the declared type.  The returned
list is the sequence of GPU calls issued. -/
noncomputable def setUniform (uniforms : List (String × ℕ)) (name : String)
    (u : UniformValue) : List GLCall :=
  match uniforms.lookup name with
  | none => []
  | some location =>
    match u.type with
    | .float => [.uniform1f location u.value]
    | .int => [.uniform1i location u.value]
    | .vec2 =>
      match u.value with
      | .arr l =>
        if l.length = 2 then [.uniform2f location (l.getD 0 0) (l.getD 1 0)]
        else [.warn ("Uniform '" ++ name ++ "' value for 'vec2' must be an array of 2 numbers")]
      | .num _ =>
        [.warn ("Uniform '" ++ name ++ "' value for 'vec2' must be an array of 2 numbers")]
    | .vec3 =>
      match u.value with
      | .arr l =>
        if l.length = 3 then
          [.uniform3f location (l.getD 0 0) (l.getD 1 0) (l.getD 2 0)]
        else [.warn ("Uniform '" ++ name ++ "' value for 'vec3' must be an array of 3 numbers")]
      | .num _ =>
        [.warn ("Uniform '" ++ name ++ "' value for 'vec3' must be an array of 3 numbers")]
    | .vec4 =>
      match u.value with
      | .arr l =>
        if l.length = 4 then
          [.uniform4f location (l.getD 0 0) (l.getD 1 0) (l.getD 2 0) (l.getD 3 0)]
        else [.warn ("Uniform '" ++ name ++ "' value for 'vec4' must be an array of 4 numbers")]
      | .num _ =>
        [.warn ("Uniform '" ++ name ++ "' value for 'vec4' must be an array of 4 numbers")]
    | .mat3 => [.uniformMatrix3fv location u.value]
    | .mat4 => [.uniformMatrix4fv location u.value]
    | .sampler2D => [.uniform1i location u.value]

/-- Program.hasUniform. -/
def hasUniform (uniforms : List (String × ℕ)) (name : String) : Bool :=
  (uniforms.lookup name).isSome

/-- The storage location a GPU call writes to (none for a warning). -/
def GLCall.loc : GLCall → Option ℕ
  | .uniform1f l _ => some l
  | .uniform1i l _ => some l
  | .uniform2f l _ _ => some l
  | .uniform3f l _ _ _ => some l
  | .uniform4f l _ _ _ _ => some l
  | .uniformMatrix3fv l _ => some l
  | .uniformMatrix4fv l _ => some l
  | .warn _ => none

/-- Last-set uniform store: each upload overwrites its own location only. -/
noncomputable def applyCall (store : ℕ → Option GLCall) (c : GLCall) :
    ℕ → Option GLCall :=
  match c.loc with
  | none => store
  | some l => fun x => if x = l then some c else store x

noncomputable def applyCalls (store : ℕ → Option GLCall) (cs : List GLCall) :
    ℕ → Option GLCall :=
  cs.foldl applyCall store

end Program

/-! ### PingPongFBO (src/core/PingPongFBO.ts) -/

namespace PingPongFBO

/-- PingPongFBO state over an abstract GPU handle type: the framebuffer
list, the texture list, and the current index (constructor produces two of
each and index 0). -/
structure State (α : Type) where
  fbos : List α
  textures : List α
  currentIndex : ℕ

/-- PingPongFBO.swap. -/
def swap {α : Type} (s : State α) : State α :=
  { s with currentIndex := 1 - s.currentIndex }

/-- PingPongFBO.getCurrentTexture (array indexing yields none out of
bounds, as the TS undefined). -/
def getCurrentTexture {α : Type} (s : State α) : Option α :=
  s.textures[s.currentIndex]?

/-- PingPongFBO.getPreviousTexture. -/
def getPreviousTexture {α : Type} (s : State α) : Option α :=
  s.textures[1 - s.currentIndex]?

/-- PingPongFBO.destroy: the resulting state plus the framebuffers and the
textures that were handed to deleteFramebuffer/deleteTexture. -/
def destroy {α : Type} (s : State α) : State α × List α × List α :=
  ({ s with fbos := [], textures := [] }, s.fbos, s.textures)

end PingPongFBO

/-! ### PresetRunner (src/presets/PresetRunner.ts)

Preset hooks and program compilation are modelled by outcome flags; GPU
teardown/construction side effects become an event trace. -/

namespace PresetRunner

/-- A preset, reduced to what loadPreset observes: presence of destroy and
init hooks, whether init throws, and whether its shaders compile and link. -/
structure PresetM where
  hasDestroy : Bool
  hasInit : Bool
  initOk : Bool
  compileOk : Bool
deriving DecidableEq

/-- PresetRunner state: whether a compiled program is held, the active
preset, and the frame counter. -/
structure RunnerState where
  hasProgram : Bool
  currentPreset : Option PresetM
  frameCount : ℕ
deriving DecidableEq

inductive Event where
  | presetDestroyHook
  | programRelease
  | programConstruct
  | presetInit
  | timingReset
deriving DecidableEq

/-- The teardown events loadPreset emits before touching the new preset:
the old preset's destroy hook (when present), then the old program's
release (when present). -/
def teardownTrace (s : RunnerState) : List Event :=
  (match s.currentPreset with
   | some q => if q.hasDestroy then [Event.presetDestroyHook] else []
   | none => []) ++
  (if s.hasProgram then [Event.programRelease] else [])

/-- PresetRunner.loadPreset: tear down the old preset and program, then try
to build the new program; preset.init may throw; any failure is caught and
clears the active preset. -/
def loadPreset (s : RunnerState) (p : PresetM) : RunnerState × List Event :=
  let tr := teardownTrace s
  if p.compileOk then
    if p.hasInit ∧ p.initOk = false then
      ({ hasProgram := true, currentPreset := none, frameCount := s.frameCount },
       tr ++ [Event.programConstruct, Event.presetInit])
    else
      ({ hasProgram := true, currentPreset := some p, frameCount := 0 },
       tr ++ [Event.programConstruct] ++
         (if p.hasInit then [Event.presetInit] else []) ++ [Event.timingReset])
  else
    ({ hasProgram := false, currentPreset := none, frameCount := s.frameCount },
     tr ++ [Event.programConstruct])

inductive RenderResult where
  | blank
  | draw
deriving DecidableEq

/-- PresetRunner.render: with no program or no preset it only clears to the
flat clear color and leaves the state untouched; otherwise it draws and
increments the frame counter. -/
def render (s : RunnerState) : RunnerState × RenderResult :=
  if s.hasProgram = false ∨ s.currentPreset = none then
    (s, RenderResult.blank)
  else
    ({ s with frameCount := s.frameCount + 1 }, RenderResult.draw)

/-- Iterated render calls: the n-th subsequent render after a load. -/
def renderIter (s : RunnerState) : ℕ → RunnerState × RenderResult
  | 0 => render s
  | n + 1 => render (renderIter s n).1

end PresetRunner

namespace BeatDetector

/-- Concrete full-history detector state used by witnesses: capacity 2,
history [0, 0]. -/
noncomputable def sampleFullState : State :=
  { config := { threshold := 1.3, minimumInterval := 300,
                energyHistory := 2, varianceThreshold := 0.1 }
    energyHistory := [0, 0]
    lastBeatTime := 0
    isCurrentlyBeat := false }

theorem update_beat_elapsed (s : State) (t e : ℝ)
    (h : (update s t e).isCurrentlyBeat = true) :
    t - s.lastBeatTime ≥ s.config.minimumInterval := by
  simp only [update] at h
  split_ifs at h <;> simp_all

/-- C1: with a full energy history (capacity N, default 43), update pushes the
new sample, evicts the oldest, and sets the beat flag iff the current energy
exceeds the history mean times the threshold, the variance
sqrt(mean((h - mean)^2)) exceeds the variance threshold, and at least
minimumInterval has elapsed since the last emitted beat; on a beat the
current timestamp is recorded, otherwise the flag is false and the last
beat time is unchanged. -/
theorem update_full_mean_variance_beat (s : State) (t e : ℝ)
    (hfull : s.energyHistory.length = s.config.energyHistory)
    (hN : 0 < s.config.energyHistory) :
    (update s t e).energyHistory = (s.energyHistory ++ [e]).drop 1 ∧
    ((update s t e).isCurrentlyBeat = true ↔
      (e > listMean ((s.energyHistory ++ [e]).drop 1) * s.config.threshold ∧
       specVariance ((s.energyHistory ++ [e]).drop 1) > s.config.varianceThreshold ∧
       t - s.lastBeatTime ≥ s.config.minimumInterval)) ∧
    ((update s t e).isCurrentlyBeat = true → (update s t e).lastBeatTime = t) ∧
    ((update s t e).isCurrentlyBeat = false →
      (update s t e).lastBeatTime = s.lastBeatTime) := by
  have hlen1 : (s.energyHistory ++ [e]).length = s.config.energyHistory + 1 := by
    simp [hfull]
  have h1 : s.config.energyHistory < (s.energyHistory ++ [e]).length := by
    omega
  have hlen2 : ((s.energyHistory ++ [e]).drop 1).length = s.config.energyHistory := by
    simp [hlen1]
  have h2 : ¬ ((s.energyHistory ++ [e]).drop 1).length < s.config.energyHistory := by
    omega
  have h3 : ¬ ((s.energyHistory ++ [e]).drop 1).length = 0 := by
    omega
  simp only [update, calculateVariance]
  rw [if_pos h1, if_neg h2]
  simp only [if_neg h3]
  split_ifs with hb
  · exact ⟨rfl, iff_of_true rfl (by simpa only [listMean, specVariance] using hb),
      fun _ => rfl, fun hf => by simp at hf⟩
  · exact ⟨rfl, iff_of_false (by simp) (by simpa only [listMean, specVariance] using hb),
      fun ht => by simp at ht, fun _ => rfl⟩

/-- Witness for C1: the theorem applied at a concrete full-history state. -/
theorem update_full_mean_variance_beat_witness :
    sampleFullState.energyHistory.length = sampleFullState.config.energyHistory ∧
    0 < sampleFullState.config.energyHistory ∧
    (update sampleFullState 5 0).energyHistory =
      (sampleFullState.energyHistory ++ [0]).drop 1 :=
  ⟨rfl, by decide,
    (update_full_mean_variance_beat sampleFullState 5 0 rfl (by decide)).1⟩

/-- C4: a detector that has received fewer than N energy samples since
construction (history not yet full) reports no beat and beat strength 0,
whatever the energies were. -/
theorem short_history_no_beat_zero_strength (config : Config)
    (inputs : List (ℝ × ℝ)) (e : ℝ)
    (h : inputs.length < config.energyHistory) :
    (runUpdates (initialState config) inputs).isCurrentlyBeat = false ∧
    getBeatStrength (runUpdates (initialState config) inputs) e = 0 ∧
    (∀ (h' : List ℝ) (lb : ℝ) (bt : Bool),
      reset (State.mk config h' lb bt) = initialState config) := by
  obtain ⟨hc, hl, hb⟩ :=
    runUpdates_short inputs (initialState config) (by simpa [initialState] using h)
  have hshort : (runUpdates (initialState config) inputs).energyHistory.length <
      (runUpdates (initialState config) inputs).config.energyHistory := by
    rw [hl, hc]
    simpa [initialState] using h
  refine ⟨?_, ?_, fun _ _ _ => rfl⟩
  · rcases hb with hb | hb
    · exact hb
    · subst hb
      rfl
  · simp only [getBeatStrength]
    rw [if_pos hshort]

/-- Witness for C4 at a concrete two-sample run against capacity 3. -/
theorem short_history_no_beat_zero_strength_witness :
    ([((1 : ℝ), (2 : ℝ)), (2, 3)] : List (ℝ × ℝ)).length <
      (Config.mk 1.3 300 3 0.1).energyHistory ∧
    (runUpdates (initialState (Config.mk 1.3 300 3 0.1))
        [((1 : ℝ), (2 : ℝ)), (2, 3)]).isCurrentlyBeat = false ∧
    getBeatStrength
      (runUpdates (initialState (Config.mk 1.3 300 3 0.1))
        [((1 : ℝ), (2 : ℝ)), (2, 3)]) 9 = 0 :=
  ⟨by decide,
    (short_history_no_beat_zero_strength (Config.mk 1.3 300 3 0.1)
      [((1 : ℝ), (2 : ℝ)), (2, 3)] 9 (by decide)).1,
    (short_history_no_beat_zero_strength (Config.mk 1.3 300 3 0.1)
      [((1 : ℝ), (2 : ℝ)), (2, 3)] 9 (by decide)).2.1⟩

/-- C5: if an update at time t1 emits a beat and a second update happens at
time t2 with t2 - t1 below minimumInterval, the second call reports
beat = false even if its energy and variance conditions hold — two close
candidate beats collapse to one emitted tick. -/
theorem close_beats_collapse (s : State) (t1 e1 t2 e2 : ℝ)
    (hbeat : (update s t1 e1).isCurrentlyBeat = true)
    (hclose : t2 - t1 < s.config.minimumInterval) :
    (update (update s t1 e1) t2 e2).isCurrentlyBeat = false := by
  have hl := update_lastBeatTime_of_beat s t1 e1 hbeat
  have hc := update_config s t1 e1
  by_contra hne
  rw [Bool.not_eq_false] at hne
  have helapsed := update_beat_elapsed (update s t1 e1) t2 e2 hne
  rw [hl, hc] at helapsed
  linarith

theorem update_fill_beat_iff (s : State) (t e : ℝ)
    (hfill : s.energyHistory.length + 1 = s.config.energyHistory) :
    (update s t e).isCurrentlyBeat = true ↔
      (e > listMean (s.energyHistory ++ [e]) * s.config.threshold ∧
       specVariance (s.energyHistory ++ [e]) > s.config.varianceThreshold ∧
       t - s.lastBeatTime ≥ s.config.minimumInterval) := by
  have hlen1 : (s.energyHistory ++ [e]).length = s.config.energyHistory := by
    simp [← hfill]
  have h1 : ¬ s.config.energyHistory < (s.energyHistory ++ [e]).length := by
    omega
  have h2 : ¬ (s.energyHistory ++ [e]).length < s.config.energyHistory := by
    omega
  have h3 : ¬ (s.energyHistory ++ [e]).length = 0 := by
    omega
  simp only [update, calculateVariance]
  rw [if_neg h1, if_neg h2]
  simp only [if_neg h3]
  split_ifs with hb
  · exact iff_of_true rfl (by simpa only [listMean, specVariance] using hb)
  · exact iff_of_false (by simp) (by simpa only [listMean, specVariance] using hb)

/-- Concrete nearly-full detector state (capacity 2, history [0]) whose next
update with energy 1 emits a beat. -/
noncomputable def sampleBeatState : State :=
  { config := { threshold := 1.3, minimumInterval := 300,
                energyHistory := 2, varianceThreshold := 0.1 }
    energyHistory := [0]
    lastBeatTime := 0
    isCurrentlyBeat := false }

theorem sampleBeatState_beat :
    (update sampleBeatState 1000 1).isCurrentlyBeat = true := by
  rw [update_fill_beat_iff sampleBeatState 1000 1 rfl]
  refine ⟨by norm_num [sampleBeatState, listMean], ?_, by norm_num [sampleBeatState]⟩
  have harg : ((([(0 : ℝ)] ++ [1]).map
      (fun v => (v - listMean ([(0 : ℝ)] ++ [1])) ^ 2)).sum /
        ((([(0 : ℝ)] ++ [1]).length : ℕ) : ℝ)) = (1 / 2) ^ 2 := by
    norm_num [listMean]
  show specVariance ([(0 : ℝ)] ++ [1]) > sampleBeatState.config.varianceThreshold
  rw [specVariance, harg, Real.sqrt_sq (by norm_num)]
  norm_num [sampleBeatState]

/-- Witness for C5: a concrete beat at time 1000 suppresses a second
candidate at time 1100. -/
theorem close_beats_collapse_witness :
    (update sampleBeatState 1000 1).isCurrentlyBeat = true ∧
    (1100 : ℝ) - 1000 < sampleBeatState.config.minimumInterval ∧
    (update (update sampleBeatState 1000 1) 1100 2).isCurrentlyBeat = false :=
  ⟨sampleBeatState_beat, by norm_num [sampleBeatState],
    close_beats_collapse sampleBeatState 1000 1 1100 2 sampleBeatState_beat
      (by norm_num [sampleBeatState])⟩

/-- C9: getBeatStrength on a full history with rolling average 0 returns 0
through the explicit average = 0 guard, never evaluating the division. -/
theorem getBeatStrength_zero_average_guard (s : State) (e : ℝ)
    (hfull : ¬ s.energyHistory.length < s.config.energyHistory)
    (havg : s.energyHistory.sum / (s.energyHistory.length : ℝ) = 0) :
    getBeatStrength s e = 0 := by
  simp only [getBeatStrength]
  rw [if_neg hfull, if_pos havg]

/-- Witness for C9 at a full all-zero history. -/
theorem getBeatStrength_zero_average_guard_witness :
    (¬ sampleFullState.energyHistory.length <
        sampleFullState.config.energyHistory) ∧
    sampleFullState.energyHistory.sum /
      (sampleFullState.energyHistory.length : ℝ) = 0 ∧
    getBeatStrength sampleFullState 7 = 0 :=
  ⟨by decide, by simp [sampleFullState],
    getBeatStrength_zero_average_guard sampleFullState 7 (by decide)
      (by simp [sampleFullState])⟩

end BeatDetector

end Hypercream

namespace Hypercream

open AudioAnalyzer

theorem sumSquares_replicate (n v : ℕ) :
    sumSquares (List.replicate n v) = n * (((v : ℝ) / 255) * ((v : ℝ) / 255)) := by
  simp [sumSquares, List.map_replicate, List.sum_replicate, nsmul_eq_mul]

theorem getEnergy_eq_specRMS (s : List ℕ) : getEnergy s = specRMS s := rfl

theorem getTreble_eq_specRMS (s : List ℕ) :
    getTreble s = specRMS (s.drop (s.length * 3 / 4)) := by
  rcases Nat.eq_zero_or_pos s.length with h0 | hpos
  · rw [List.length_eq_zero] at h0
    subst h0
    rfl
  · have hk : s.length * 3 / 4 < s.length := by omega
    simp only [getTreble, specRMS, List.length_drop]
    rw [if_neg (by omega), if_neg (by omega)]

theorem getBass_eq_zeroed_dc (s : List ℕ) (h12 : 12 ≤ s.length) :
    getBass s = specRMS ((0 : ℕ) :: (s.take 12).drop 1) := by
  have h0 : ¬ s.length = 0 := by omega
  have hmin : min 12 s.length = 12 := by omega
  have hlen : ((0 : ℕ) :: (s.take 12).drop 1).length = 12 := by
    simp only [List.length_cons, List.length_drop, List.length_take]
    omega
  have hss : sumSquares ((0 : ℕ) :: (s.take 12).drop 1) =
      sumSquares ((s.take 12).drop 1) := by
    simp [sumSquares]
  simp only [getBass, specRMS]
  rw [if_neg h0, hmin, if_neg (by rw [hlen]; omega), hss, hlen]

theorem getEnergy_replicate_zero (n : ℕ) :
    getEnergy (List.replicate n 0) = 0 := by
  rcases Nat.eq_zero_or_pos n with h | h
  · subst h
    rfl
  · simp only [getEnergy, List.length_replicate]
    rw [if_neg (by omega), sumSquares_replicate]
    simp

theorem getBass_replicate_zero (n : ℕ) :
    getBass (List.replicate n 0) = 0 := by
  rcases Nat.eq_zero_or_pos n with h | h
  · subst h
    rfl
  · simp only [getBass, List.length_replicate]
    rw [if_neg (by omega), List.take_replicate, List.drop_replicate,
      sumSquares_replicate]
    simp

theorem getTreble_replicate_zero (n : ℕ) :
    getTreble (List.replicate n 0) = 0 := by
  rcases Nat.eq_zero_or_pos n with h | h
  · subst h
    rfl
  · simp only [getTreble, List.length_replicate]
    rw [if_neg (by omega), List.drop_replicate, sumSquares_replicate]
    simp

theorem getEnergy_replicate_max (n : ℕ) :
    getEnergy (List.replicate (n + 1) 255) = 1 := by
  simp only [getEnergy, List.length_replicate]
  rw [if_neg (by omega), sumSquares_replicate]
  have h255 : ((255 : ℕ) : ℝ) / 255 * (((255 : ℕ) : ℝ) / 255) = 1 := by norm_num
  rw [h255, mul_one, div_self (by positivity), Real.sqrt_one]

/-- C2 counterexample: on the all-255 spectrum of 16 bins, getBass is
sqrt(11/12), not the RMS of the lowest 12 bins (which is 1): the DC bin is
excluded from the sum but counted in the divisor. -/
theorem getBass_not_lowest_bins_rms :
    getBass (List.replicate 16 255) ≠
      specRMS ((List.replicate 16 255).take 12) := by
  have hL : getBass (List.replicate 16 255) = Real.sqrt (11 / 12) := by
    simp only [getBass, List.length_replicate]
    rw [if_neg (by omega), List.take_replicate, List.drop_replicate,
      sumSquares_replicate]
    norm_num
  have hR : specRMS ((List.replicate 16 255).take 12) = 1 := by
    rw [List.take_replicate]
    simp only [specRMS, List.length_replicate]
    rw [if_neg (by omega), sumSquares_replicate]
    norm_num
  rw [hL, hR, Ne, Real.sqrt_eq_one]
  norm_num

/-- C2 amended: getEnergy and getTreble are exact RMS summaries of the
normalized spectrum over the full range and the top quartile respectively;
getBass equals the RMS of the lowest 12 bins with the DC bin value replaced
by zero (the source sums bins 1..11 but divides by 12); all three summaries
are exactly 0 on an all-zero spectrum, and getEnergy is exactly 1 on a
nonempty all-255 spectrum. -/
theorem audio_features_rms_amended (s : List ℕ) (n : ℕ) (h12 : 12 ≤ s.length) :
    getEnergy s = specRMS s ∧
    getTreble s = specRMS (s.drop (s.length * 3 / 4)) ∧
    getBass s = specRMS ((0 : ℕ) :: (s.take 12).drop 1) ∧
    getEnergy (List.replicate n 0) = 0 ∧
    getBass (List.replicate n 0) = 0 ∧
    getTreble (List.replicate n 0) = 0 ∧
    getEnergy (List.replicate (n + 1) 255) = 1 :=
  ⟨getEnergy_eq_specRMS s, getTreble_eq_specRMS s, getBass_eq_zeroed_dc s h12,
    getEnergy_replicate_zero n, getBass_replicate_zero n,
    getTreble_replicate_zero n, getEnergy_replicate_max n⟩

/-- Witness for the amended C2 at the 16-bin all-255 spectrum. -/
theorem audio_features_rms_amended_witness :
    12 ≤ (List.replicate 16 (255 : ℕ)).length ∧
    getEnergy (List.replicate 16 (255 : ℕ)) = specRMS (List.replicate 16 255) :=
  ⟨by decide, (audio_features_rms_amended (List.replicate 16 255) 3 (by decide)).1⟩

end Hypercream

namespace Hypercream

namespace Program

theorem erase_fresh_append (l : List ℕ) (a : ℕ) (h : a ∉ l) :
    (l ++ [a]).erase a = l := by
  rw [List.erase_append_right _ h, List.erase_cons_head, List.append_nil]

/-- C3 counterexample: starting from a fresh context, with a vertex shader
that compiles and a fragment shader that does not, construction throws the
compile diagnostic but the vertex shader object (id 0) stays allocated —
the fragment-compile failure path does not release every intermediate
shader object. -/
theorem createProgram_fragment_failure_leaks_vertex :
    (createProgram (GLShaderSpec.mk true false true "v" "f" "l")
        (GLResources.mk [] [] 0)).1 =
      Except.error ("Shader compilation failed: f") ∧
    (createProgram (GLShaderSpec.mk true false true "v" "f" "l")
        (GLResources.mk [] [] 0)).2.shaders = [0] :=
  ⟨rfl, rfl⟩

/-- C3 amended: construction either succeeds with a linked program (and
then both intermediate shaders are released), or throws an error carrying
the GPU diagnostic text with no program object retained; but on failure
only the shader that itself failed to compile is released: a
fragment-compile failure leaves the vertex shader allocated, and a link
failure leaves both shaders allocated (only the program object is
deleted). -/
theorem createProgram_characterization (spec : GLShaderSpec) (st : GLResources)
    (hs : ∀ x ∈ st.shaders, x < st.nextId)
    (hp : ∀ x ∈ st.programs, x < st.nextId) :
    (spec.vertexCompileOk = false →
      createProgram spec st =
        (Except.error ("Shader compilation failed: " ++ spec.vertexLog),
         GLResources.mk st.shaders st.programs (st.nextId + 1))) ∧
    (spec.vertexCompileOk = true → spec.fragmentCompileOk = false →
      createProgram spec st =
        (Except.error ("Shader compilation failed: " ++ spec.fragmentLog),
         GLResources.mk (st.shaders ++ [st.nextId]) st.programs (st.nextId + 2))) ∧
    (spec.vertexCompileOk = true → spec.fragmentCompileOk = true →
      spec.linkOk = false →
      createProgram spec st =
        (Except.error
           ("Failed to create shader program: Shader program linking failed: "
             ++ spec.linkLog),
         GLResources.mk (st.shaders ++ [st.nextId, st.nextId + 1]) st.programs
           (st.nextId + 3))) ∧
    (spec.vertexCompileOk = true → spec.fragmentCompileOk = true →
      spec.linkOk = true →
      createProgram spec st =
        (Except.ok (st.nextId + 2),
         GLResources.mk st.shaders (st.programs ++ [st.nextId + 2])
           (st.nextId + 3))) := by
  have hvnotmem : st.nextId ∉ st.shaders := fun hm => lt_irrefl _ (hs _ hm)
  refine ⟨?_, ?_, ?_, ?_⟩
  · intro hv
    simp [createProgram, createShader, GLShaderSpec.compileOk,
      GLShaderSpec.infoLog, hv, erase_fresh_append st.shaders st.nextId hvnotmem]
  · intro hv hf
    have h1 : st.nextId + 1 ∉ st.shaders := fun hm => absurd (hs _ hm) (by omega)
    have e1 : (st.shaders ++ [st.nextId, st.nextId + 1]).erase (st.nextId + 1) =
        st.shaders ++ [st.nextId] := by
      rw [List.erase_append_right _ h1,
        List.erase_cons_tail (not_beq_of_ne (by omega)), List.erase_cons_head]
    simp [createProgram, createShader, GLShaderSpec.compileOk,
      GLShaderSpec.infoLog, hv, hf, e1, List.append_assoc]
  · intro hv hf hl
    have h2 : st.nextId + 2 ∉ st.programs := fun hm => absurd (hp _ hm) (by omega)
    simp [createProgram, createShader, GLShaderSpec.compileOk,
      GLShaderSpec.infoLog, hv, hf, hl,
      erase_fresh_append st.programs (st.nextId + 2) h2,
      List.append_assoc]
  · intro hv hf hl
    have e1 : (st.shaders ++ [st.nextId, st.nextId + 1]).erase st.nextId =
        st.shaders ++ [st.nextId + 1] := by
      rw [List.erase_append_right _ hvnotmem, List.erase_cons_head]
    have h1 : st.nextId + 1 ∉ st.shaders := fun hm => absurd (hs _ hm) (by omega)
    have e2 : (st.shaders ++ [st.nextId + 1]).erase (st.nextId + 1) = st.shaders :=
      erase_fresh_append st.shaders (st.nextId + 1) h1
    simp [createProgram, createShader, GLShaderSpec.compileOk,
      GLShaderSpec.infoLog, hv, hf, hl, e1, e2, List.append_assoc]

/-- Witness for the amended C3: the all-ok oracle on a fresh context yields
a linked program with both shaders released. -/
theorem createProgram_characterization_witness :
    (∀ x ∈ (GLResources.mk [] [] 0).shaders, x < (GLResources.mk [] [] 0).nextId) ∧
    (∀ x ∈ (GLResources.mk [] [] 0).programs, x < (GLResources.mk [] [] 0).nextId) ∧
    createProgram (GLShaderSpec.mk true true true "v" "f" "l")
        (GLResources.mk [] [] 0) =
      (Except.ok 2, GLResources.mk [] [2] 3) :=
  ⟨by simp, by simp,
    (createProgram_characterization (GLShaderSpec.mk true true true "v" "f" "l")
      (GLResources.mk [] [] 0) (by simp) (by simp)).2.2.2 rfl rfl rfl⟩

/-- C7: setUniform for a name absent from the cached uniform map issues no
GPU call at all — a silent no-op that cannot throw — and therefore leaves
the last-set value of every uniform location unchanged. -/
theorem setUniform_absent_silent_noop (uniforms : List (String × ℕ))
    (name : String) (u : UniformValue) (store : ℕ → Option GLCall)
    (h : uniforms.lookup name = none) :
    setUniform uniforms name u = [] ∧
    applyCalls store (setUniform uniforms name u) = store := by
  have hset : setUniform uniforms name u = [] := by
    simp [setUniform, h]
  exact ⟨hset, by rw [hset]; rfl⟩

/-- Witness for C7: probing u_energy against a program that only has
u_time. -/
theorem setUniform_absent_silent_noop_witness :
    ([(("u_time" : String), (1 : ℕ))].lookup "u_energy" = none) ∧
    setUniform [(("u_time" : String), (1 : ℕ))] "u_energy"
      (UniformValue.mk UniformType.float (UniformPayload.num 0)) = [] :=
  ⟨rfl,
    (setUniform_absent_silent_noop [(("u_time" : String), (1 : ℕ))] "u_energy"
      (UniformValue.mk UniformType.float (UniformPayload.num 0))
      (fun _ => none) rfl).1⟩

end Program

namespace PingPongFBO

/-- C8: with the index in its {0,1} invariant range, swap is an involution
(two swaps restore the whole state, in particular both texture identities),
and one swap exchanges the current and previous textures. -/
theorem swap_involution {α : Type} (s : State α) (h : s.currentIndex ≤ 1) :
    swap (swap s) = s ∧
    getCurrentTexture (swap s) = getPreviousTexture s ∧
    getPreviousTexture (swap s) = getCurrentTexture s ∧
    (swap s).currentIndex ≤ 1 := by
  obtain ⟨f, t, i⟩ := s
  have hi : i ≤ 1 := h
  have h2 : 1 - (1 - i) = i := by omega
  refine ⟨?_, rfl, ?_, ?_⟩
  · simp [swap, h2]
  · simp [swap, getPreviousTexture, getCurrentTexture, h2]
  · show 1 - i ≤ 1
    omega

/-- Witness for C8 on a concrete two-texture surface. -/
theorem swap_involution_witness :
    (State.mk [5, 6] [10, 20] 0).currentIndex ≤ 1 ∧
    swap (swap (State.mk ([5, 6] : List ℕ) [10, 20] 0)) =
      State.mk ([5, 6] : List ℕ) [10, 20] 0 :=
  ⟨by decide, (swap_involution (State.mk ([5, 6] : List ℕ) [10, 20] 0) (by decide)).1⟩

/-- C10: destroy empties both resource lists, so destroy is idempotent and
a second destroy deletes no framebuffer and no texture — calling it more
than once never double-frees. -/
theorem destroy_idempotent {α : Type} (s : State α) :
    (destroy s).1.fbos = [] ∧
    (destroy s).1.textures = [] ∧
    destroy ((destroy s).1) =
      ((destroy s).1, ([] : List α), ([] : List α)) :=
  ⟨rfl, rfl, rfl⟩

end PingPongFBO

namespace PresetRunner

theorem construct_not_mem_teardown (s : RunnerState) :
    Event.programConstruct ∉ teardownTrace s := by
  obtain ⟨hp, cp, fc⟩ := s
  rcases cp with _ | q
  · cases hp <;> simp [teardownTrace]
  · obtain ⟨hd, hi, io, co⟩ := q
    cases hp <;> cases hd <;> simp [teardownTrace]

/-- C6: loadPreset emits the previous preset's teardown (destroy hook, then
program release) strictly before constructing the new program — its trace
is the teardown events followed by a construction part that starts with
programConstruct and contains no teardown event; and when the new preset's
program fails to compile or link, loadPreset returns normally with no
program and no active preset, and every subsequent render call returns the
flat clear color and leaves the state unchanged. -/
theorem loadPreset_teardown_order_and_failure (s : RunnerState) (p : PresetM) :
    (∃ rest, (loadPreset s p).2 = teardownTrace s ++ rest ∧
      rest.head? = some Event.programConstruct ∧
      Event.presetDestroyHook ∉ rest ∧
      Event.programRelease ∉ rest ∧
      Event.programConstruct ∉ teardownTrace s) ∧
    (p.compileOk = false →
      (loadPreset s p).1.hasProgram = false ∧
      (loadPreset s p).1.currentPreset = none ∧
      ∀ n, renderIter (loadPreset s p).1 n =
        ((loadPreset s p).1, RenderResult.blank)) := by
  constructor
  · by_cases h1 : p.compileOk = true
    · by_cases h2 : (p.hasInit = true ∧ p.initOk = false)
      · refine ⟨[Event.programConstruct, Event.presetInit], ?_, rfl,
          by decide, by decide, construct_not_mem_teardown s⟩
        simp [loadPreset, h1, h2]
      · by_cases h3 : p.hasInit = true
        · refine ⟨[Event.programConstruct, Event.presetInit, Event.timingReset],
            ?_, rfl, by decide, by decide, construct_not_mem_teardown s⟩
          have h4 : ¬ p.initOk = false := fun hio => h2 ⟨h3, hio⟩
          simp [loadPreset, h1, h2, h3, h4]
        · refine ⟨[Event.programConstruct, Event.timingReset], ?_, rfl,
            by decide, by decide, construct_not_mem_teardown s⟩
          simp [loadPreset, h1, h2, h3]
    · refine ⟨[Event.programConstruct], ?_, rfl, by decide, by decide,
        construct_not_mem_teardown s⟩
      simp [loadPreset, h1]
  · intro hc
    have h1 : ¬ p.compileOk = true := by simp [hc]
    have hstate : (loadPreset s p).1 = RunnerState.mk false none s.frameCount := by
      simp [loadPreset, h1]
    have hrender : render (RunnerState.mk false none s.frameCount) =
        (RunnerState.mk false none s.frameCount, RenderResult.blank) := by
      simp [render]
    refine ⟨by rw [hstate], by rw [hstate], ?_⟩
    intro n
    rw [hstate]
    induction n with
    | zero => simpa [renderIter] using hrender
    | succ n ih => simp [renderIter, ih, hrender]

/-- Concrete runner state and failing preset for the C6 witness. -/
def runnerSample : RunnerState :=
  RunnerState.mk true (some (PresetM.mk true true true true)) 5

def failPreset : PresetM := PresetM.mk false false true false

/-- Witness for C6: loading a non-compiling preset over an active one. -/
theorem loadPreset_teardown_order_and_failure_witness :
    failPreset.compileOk = false ∧
    (loadPreset runnerSample failPreset).1.currentPreset = none ∧
    renderIter (loadPreset runnerSample failPreset).1 0 =
      ((loadPreset runnerSample failPreset).1, RenderResult.blank) :=
  ⟨rfl,
    ((loadPreset_teardown_order_and_failure runnerSample failPreset).2 rfl).2.1,
    ((loadPreset_teardown_order_and_failure runnerSample failPreset).2 rfl).2.2 0⟩

end PresetRunner

end Hypercream
